import Mathlib

/-!
Shallow embedding of `src/auto_forge.py` (Auto Forge, an automated project
generator): the blueprint pipeline (`MistralPlanner.ask`,
`MistralPlanner._get_fallback_structure`, `MistralPlanner.parse_structure`),
the materializer (`StructureCreator._sanitize_name`,
`StructureCreator.create_structure`) and the test-fix retry loop
(`TestRunner.run_tests`). Theorems settle the claims about these components.
-/

namespace AutoForge

/-- Model of the JSON values manipulated by the blueprint pipeline: strings,
arrays and objects (an object is its ordered key/value list, as a Python dict
preserves insertion order and, coming from `json.loads`, has no duplicate
keys). Numbers, booleans and null are omitted: no blueprint field produced or
inspected by the program holds one. -/
inductive Json where
  | str (s : String)
  | arr (elems : List Json)
  | obj (kvs : List (String × Json))

/-- Python `k in d` for a dict `d`: key membership. -/
def hasKey (k : String) (kvs : List (String × Json)) : Bool :=
  kvs.any (fun kv => kv.1 == k)

/-- Python `d[k]` for a dict `d` (first — and, with no duplicates, only —
binding of `k`). -/
def lookup (k : String) : List (String × Json) → Option Json
  | [] => none
  | kv :: rest => if kv.1 == k then some kv.2 else lookup k rest

/-- Python `d[k] = v`: replace the value in place if the key is present,
append the new binding at the end otherwise (dict insertion order). -/
def setItem (k : String) (v : Json) : List (String × Json) → List (String × Json)
  | [] => [(k, v)]
  | kv :: rest => if kv.1 == k then (k, v) :: rest else kv :: setItem k v rest

/-- Substring test on character lists (Python `needle in haystack` for
strings). The empty needle is in every string. -/
def isSubstrAux (needle : List Char) : List Char → Bool
  | [] => needle.isEmpty
  | c :: rest => needle.isPrefixOf (c :: rest) || isSubstrAux needle rest

/-- Python `needle in haystack` on strings. -/
def strIn (needle hay : String) : Bool :=
  isSubstrAux needle.toList hay.toList

/-- Python `str.lower()`, character by character (the keywords and commands it
is compared against are ASCII, where the two agree). -/
def strLower (s : String) : String :=
  String.mk (s.toList.map Char.toLower)

/-- Python `k in v` where `v` is an arbitrary JSON value and `k` a string: key
membership for a dict, element membership for a list (Python `==` against the
string `k`, which only a `str` value can equal), substring test for a
string. -/
def pyIn (k : String) : Json → Bool
  | .obj kvs => hasKey k kvs
  | .arr xs => xs.any (fun x => match x with | .str s => s == k | _ => false)
  | .str s => strIn k s

/-- Python `for x in v` where `v` is an arbitrary JSON value: elements of a
list, one-character strings of a string, keys of a dict. -/
def pyIter : Json → List Json
  | .arr xs => xs
  | .str s => s.toList.map (fun c => .str (String.mk [c]))
  | .obj kvs => kvs.map (fun kv => Json.str kv.1)

/-- The Python exceptions that can escape `MistralPlanner.parse_structure`:
`json.JSONDecodeError` (re-raised at line 216), `ValueError` (raised at
line 209 and re-raised at line 219), and the `TypeError` Python raises when
the parsed top-level value is not a dict (subscript assignment or string
subscript on a list/str at lines 200/202/204/207). -/
inductive PyError where
  | jsonDecodeError
  | valueError
  | typeError
  deriving Repr, DecidableEq

/-- The three keys every file object must carry (line 208). -/
def requiredFileKeys : List String := ["path", "description", "copilot_prompt"]

/-- `all(key in file_obj for key in ["path", "description", "copilot_prompt"])`
(line 208). -/
def fileHasRequiredKeys (f : Json) : Bool :=
  requiredFileKeys.all (fun k => pyIn k f)

/-- One defaulting step of lines 199–204:
`if k not in structure: structure[k] = v`. -/
def setDefault (k : String) (v : Json) (s : List (String × Json)) :
    List (String × Json) :=
  if hasKey k s then s else setItem k v s

/-- Lines 199–204: default the top-level keys `folders`, `files`,
`interactions` (in that order) to `[]`, `[]`, `""` when absent. -/
def fillDefaults (kvs : List (String × Json)) : List (String × Json) :=
  setDefault "interactions" (.str "")
    (setDefault "files" (.arr [])
      (setDefault "folders" (.arr []) kvs))

/-- `structure["files"]` after defaulting; the key is always present at this
point, the `.getD` default is never taken. -/
def filesValue (s : List (String × Json)) : Json :=
  (lookup "files" s).getD (.arr [])

/-- The file objects the validation loop of lines 207–209 iterates over, for
a parsed top-level object `kvs`: `for file_obj in structure["files"]` after
defaulting. -/
def filesOf (kvs : List (String × Json)) : List Json :=
  pyIter (filesValue (fillDefaults kvs))

/-- `MistralPlanner.parse_structure` (lines 186–219), modelled at the JSON
value level: its argument is the result of `json.loads` on the (fence-
stripped) response text, `none` standing for text that is not valid JSON
(`json.JSONDecodeError`). A parse error and a validation error are re-raised
(lines 213–219), so they surface as `Except.error`; fence stripping
(lines 190–194) only affects which text parses and is absorbed into the
`Option Json` argument. -/
def parseStructure : Option Json → Except PyError (List (String × Json))
  | none => .error .jsonDecodeError
  | some (.str _) => .error .typeError
  | some (.arr _) => .error .typeError
  | some (.obj kvs) =>
    if (filesOf kvs).all fileHasRequiredKeys then
      .ok (fillDefaults kvs)
    else
      .error .valueError

/-- The key/value list of a top-level JSON object (the shape every blueprint
accepted by `parseStructure` has). -/
def jsonObjKvs : Json → List (String × Json)
  | .obj kvs => kvs
  | _ => []

/-- One entry of the `files` array of the fallback structure: the dict literal
`{"path": ..., "description": ..., "copilot_prompt": ...}` (lines 38–52). -/
structure FileEntry where
  path : String
  description : String
  copilot_prompt : String
  deriving Repr, DecidableEq

/-- The mutable `self.fallback_structure` dict (lines 35–56). Its keys are
fixed in the source literal, so the dict is embedded as a record with one
field per key, in insertion order `folders`, `files`, `interactions`,
`test_command`. -/
structure FbStructure where
  folders : List String
  files : List FileEntry
  interactions : String
  test_command : String
  deriving Repr, DecidableEq

/-- The initial value of `self.fallback_structure` (lines 35–56). -/
def initFallbackStructure : FbStructure :=
  { folders := ["src", "tests", "docs"]
    files :=
      [ { path := "src/main.py"
          description := "Main application entry point"
          copilot_prompt := "Create a Python main.py file that serves as the entry point for the application" }
      , { path := "tests/test_main.py"
          description := "Unit tests for main module"
          copilot_prompt := "Create pytest unit tests for the main.py module" }
      , { path := "README.md"
          description := "Project documentation"
          copilot_prompt := "Create a comprehensive README.md file for this project" } ]
    interactions := "Basic project structure with main application file, tests, and documentation."
    test_command := "pytest tests" }

/-- A file entry as the JSON object `json.dumps` serializes (key order of the
source dict literal). -/
def fileEntryToJson (f : FileEntry) : Json :=
  .obj [("path", .str f.path), ("description", .str f.description),
        ("copilot_prompt", .str f.copilot_prompt)]

/-- The fallback structure as the JSON object `json.dumps` serializes (key
order of the source dict literal: `folders`, `files`, `interactions`,
`test_command`). -/
def fbToJson (fb : FbStructure) : Json :=
  .obj [("folders", .arr (fb.folders.map .str)),
        ("files", .arr (fb.files.map fileEntryToJson)),
        ("interactions", .str fb.interactions),
        ("test_command", .str fb.test_command)]

/-- Keyword list of the web branch (line 128). -/
def webKeywords : List String := ["web", "website", "html", "css", "js"]

/-- Keyword list of the backend branch (line 151). -/
def backendKeywords : List String := ["api", "server", "backend"]

/-- `any(word in topic_lower for word in words)`. -/
def anyKeywordIn (words : List String) (topicLower : String) : Bool :=
  words.any (fun w => strIn w topicLower)

/-- The web-branch structure dict (lines 129–150). -/
def webStructureJson (topic : String) : Json :=
  .obj [("folders", .arr (["src", "assets", "css", "js", "tests"].map .str)),
        ("files", .arr
          [ .obj [("path", .str "src/index.html"),
                  ("description", .str ("Main HTML file for " ++ topic)),
                  ("copilot_prompt", .str ("Create a complete HTML5 webpage for " ++ topic ++ " with modern structure and semantic elements"))]
          , .obj [("path", .str "css/style.css"),
                  ("description", .str "Main stylesheet"),
                  ("copilot_prompt", .str ("Create modern, responsive CSS styles for " ++ topic ++ " webpage with animations and good typography"))]
          , .obj [("path", .str "js/main.js"),
                  ("description", .str "Main JavaScript functionality"),
                  ("copilot_prompt", .str ("Create JavaScript code for " ++ topic ++ " with interactive features and modern ES6+ syntax"))] ]),
        ("interactions", .str ("A web project for " ++ topic ++ " with HTML structure, CSS styling, and JavaScript functionality working together to create an interactive website.")),
        ("test_command", .str "")]

/-- The backend-branch structure dict (lines 152–173). -/
def backendStructureJson (topic : String) : Json :=
  .obj [("folders", .arr (["src", "tests", "config"].map .str)),
        ("files", .arr
          [ .obj [("path", .str "src/app.py"),
                  ("description", .str ("Main application server for " ++ topic)),
                  ("copilot_prompt", .str ("Create a FastAPI or Flask server application for " ++ topic ++ " with RESTful endpoints"))]
          , .obj [("path", .str "src/models.py"),
                  ("description", .str "Data models"),
                  ("copilot_prompt", .str ("Create Pydantic or SQLAlchemy models for " ++ topic ++ " application"))]
          , .obj [("path", .str "tests/test_app.py"),
                  ("description", .str "API tests"),
                  ("copilot_prompt", .str ("Create comprehensive pytest tests for " ++ topic ++ " API endpoints"))] ]),
        ("interactions", .str ("A backend API for " ++ topic ++ " with models, endpoints, and tests working together.")),
        ("test_command", .str "pytest tests")]

/-- The generic-branch loop (lines 180–182): set the `copilot_prompt` of the
file entry whose path is `src/main.py`. The entry dicts are shared between
`structure` (a shallow `.copy()`) and `self.fallback_structure`, so this
in-place mutation also changes the stored fallback structure. -/
def updateMainPrompt (topic : String) (files : List FileEntry) : List FileEntry :=
  files.map (fun f =>
    if f.path == "src/main.py" then
      { f with copilot_prompt := "Create a Python application for " ++ topic ++ " with proper structure and functionality" }
    else f)

/-- `MistralPlanner._get_fallback_structure` (lines 123–184), with the mutable
`self.fallback_structure` passed as explicit state. The returned `Json` value
stands for the returned string `json.dumps(structure, indent=2)`: `json.dumps`
is a deterministic function of the value (and the fixed arguments), so two
equal values serialize to byte-identical strings. In the generic branch,
`structure = self.fallback_structure.copy()` is a shallow copy: rebinding
`structure["interactions"]` touches the copy only, but mutating the shared
file-entry dicts (lines 180–182) also updates the stored state. -/
def getFallbackStructure (topic : String) (fb : FbStructure) : Json × FbStructure :=
  if anyKeywordIn webKeywords (strLower topic) then
    (webStructureJson topic, fb)
  else if anyKeywordIn backendKeywords (strLower topic) then
    (backendStructureJson topic, fb)
  else
    (fbToJson
      { fb with
        interactions := "A Python project for " ++ topic ++ " with main application, tests, and documentation."
        files := updateMainPrompt topic fb.files },
     { fb with files := updateMainPrompt topic fb.files })

/-- Outcome of one attempt inside `MistralPlanner.ask` (lines 94–121):
a `requests` timeout, another `requests` error (raise_for_status or transport
failure), a `KeyError`/`IndexError` while extracting
`data["choices"][0]["message"]["content"]`, or a successfully returned
response text. As in `parseStructure`, a returned text is represented by the
result of `json.loads` on it after fence stripping — `none` when it is not
valid JSON. -/
inductive AttemptResult where
  | timeout
  | requestError
  | envelopeError
  | success (textParse : Option Json)

/-- Attempts that do not return a response text (all three are handled alike:
retry, and fall back on the final attempt). -/
def isFailedAttempt : AttemptResult → Bool
  | .success _ => false
  | _ => true

/-- The retry loop of `MistralPlanner.ask` (lines 92–121): up to
`remaining` attempts starting at index `attemptIdx`; a success returns its
text at once; a failure on the final attempt returns the fallback text
(which parses back to the fallback structure value, `json.dumps` being
inverted by `json.loads`); an earlier failure retries after a sleep. The
fuel-exhausted case is unreachable from `ask` (the loop body always returns
on the final attempt) and mirrors the implicit `None` of a Python function
falling off the end. -/
def askLoop (topic : String) (attempts : Nat → AttemptResult) (fb : FbStructure) :
    Nat → Nat → Option Json × FbStructure
  | _, 0 => (none, fb)
  | attemptIdx, remaining + 1 =>
    match attempts attemptIdx with
    | .success t => (t, fb)
    | _ =>
      if remaining == 0 then
        (some (getFallbackStructure topic fb).1, (getFallbackStructure topic fb).2)
      else
        askLoop topic attempts fb (attemptIdx + 1) remaining

/-- `MistralPlanner.ask` (lines 75–121): three attempts with escalating
timeouts `[30, 60, 90]`. -/
def ask (topic : String) (attempts : Nat → AttemptResult) (fb : FbStructure) :
    Option Json × FbStructure :=
  askLoop topic attempts fb 0 3

/-- The blueprint-acquisition pipeline of `main` (lines 518–519):
`planner.ask(topic)` followed by `planner.parse_structure(json_response)`. -/
def acquireBlueprint (topic : String) (attempts : Nat → AttemptResult)
    (fb : FbStructure) : Except PyError (List (String × Json)) :=
  parseStructure (ask topic attempts fb).1

/-- The character class of `re.sub(r'[<>:"/\\|?*]', '_', name)` (line 297). -/
def illegalChars : List Char := ['<', '>', ':', '"', '/', '\\', '|', '?', '*']

/-- One character of the strip set of `.strip('. ')` (line 298). -/
def isDotSpace (c : Char) : Bool := c == '.' || c == ' '

/-- `re.sub(r'[<>:"/\\|?*]', '_', name)` (line 297): the class matches single
characters, so the substitution replaces each illegal character by `_`. -/
def replaceIllegal (name : String) : List Char :=
  name.toList.map (fun c => if illegalChars.contains c then '_' else c)

/-- Python `str.strip('. ')`: remove leading and trailing characters drawn
from the set, here dot and space (line 298). -/
def stripDotSpace (l : List Char) : List Char :=
  (((l.dropWhile isDotSpace).reverse.dropWhile isDotSpace)).reverse

/-- `StructureCreator._sanitize_name` (lines 293–299): substitute illegal
characters, strip leading/trailing dots and spaces, then truncate to 50
characters (`sanitized[:50]`) — in that order. -/
def sanitizeName (name : String) : String :=
  String.mk ((stripDotSpace (replaceIllegal name)).take 50)

/-- A filesystem operation performed by `StructureCreator.create_structure`,
with paths as segment lists. `mkdirParent p` stands for
`Path(p).parent.mkdir(parents=True, exist_ok=True)` (line 254). -/
inductive FsAction where
  | rmtree (path : List String)
  | mkdir (path : List String)
  | mkdirParent (path : List String)
  | writeFile (path : List String) (content : String)
  deriving Repr, DecidableEq

/-- in `pathlib`, `base / segment`: joining the empty string contributes no
path component, leaving the path unchanged. -/
def pathJoin (base : List String) (segment : String) : List String :=
  if segment == "" then base else base ++ [segment]

/-- The stub written for each declared file (lines 257–260): the description
and the generation prompt as leading comment lines, then a blank line. -/
def fileStubContent (f : FileEntry) : String :=
  "# Description: " ++ f.description ++ "\n# Copilot Prompt: " ++ f.copilot_prompt ++ "\n\n"

/-- The README written at the project root (lines 267–285); the Testing
section is appended only when `structure.get("test_command")` is truthy,
i.e. the field is a non-empty string. -/
def readmeContent (topic : String) (bp : FbStructure) : String :=
  "# " ++ topic ++ "\n\n## Project Structure\n\n" ++ bp.interactions ++
    "\n\n## Getting Started\n\nThis project was generated automatically. Each file contains a Copilot prompt that describes its intended functionality.\n\n" ++
    (if bp.test_command == "" then ""
     else "## Testing\n\nRun tests with: `" ++ bp.test_command ++ "`\n\n")

/-- `StructureCreator.create_structure` (lines 231–291) as the sequence of
filesystem operations it performs, plus the returned `project_path`. The
blueprint argument is the validated structure viewed through its typed fields
(the access pattern of the source: `structure["folders"]` strings,
`structure["files"]` objects with the three keys, `structure["interactions"]`,
`structure.get("test_command")`). `pathExists` models `Path.exists()`.
The return type has no error alternative: the source performs no validation
of the sanitized name — in particular an empty `project_name` makes
`project_path` equal to `desktop_path` itself, which is then removed
recursively and recreated. -/
def createStructure (desktopPath : List String) (pathExists : List String → Bool)
    (topic : String) (bp : FbStructure) : List FsAction × List String :=
  let projectPath := pathJoin desktopPath (sanitizeName topic)
  ((if pathExists projectPath then [FsAction.rmtree projectPath] else []) ++
    [FsAction.mkdir projectPath] ++
    bp.folders.map (fun folder => FsAction.mkdir (pathJoin projectPath folder)) ++
    (bp.files.map (fun f =>
      [FsAction.mkdirParent (pathJoin projectPath f.path),
       FsAction.writeFile (pathJoin projectPath f.path) (fileStubContent f)])).flatten ++
    [FsAction.writeFile (pathJoin projectPath "README.md") (readmeContent topic bp)],
   projectPath)

/-- Outcome of one `subprocess.run` of the test command inside
`TestRunner.run_tests` (lines 424–454): a normal exit with a return code, a
`subprocess.TimeoutExpired`, or any other exception while launching
(`except Exception`, line 452). -/
inductive ExecOutcome where
  | exit (code : Nat)
  | timeoutExpired
  | execError
  deriving Repr, DecidableEq

/-- A non-zero normal exit: the one outcome that triggers the fix path. -/
def isNonzeroExit : ExecOutcome → Bool
  | .exit (_ + 1) => true
  | _ => false

/-- Result of `TestRunner.run_tests`, instrumented with the number of test
executions (`subprocess.run` calls) and fix invocations
(`_fix_with_copilot` calls, each preceded by `_create_error_fix_file`). -/
structure RunResult where
  success : Bool
  execs : Nat
  fixes : Nat
  deriving Repr, DecidableEq

/-- The guard of lines 408–417: an empty (falsy) command, or an npm-style
command (`"npm" in test_command.lower()`) without a `package.json` in the
project, skips testing entirely. -/
def skipsTests (testCommand : String) (packageJsonExists : Bool) : Bool :=
  testCommand == "" || (strIn "npm" (strLower testCommand) && !packageJsonExists)

/-- The `for attempt in range(max_attempts)` loop (lines 421–457).
`outcomes n` is what the n-th `subprocess.run` of the command does.
Exit 0 returns success at once; a non-zero exit writes the error-fix file and
invokes the Copilot fix — also on the final attempt — then retries while
budget remains; a timeout or launch error returns failure at once. Falling
off the loop returns failure (line 457). -/
def runAttempts (outcomes : Nat → ExecOutcome) : Nat → Nat → Nat → Nat → RunResult
  | _, execs, fixes, 0 => ⟨false, execs, fixes⟩
  | attempt, execs, fixes, remaining + 1 =>
    match outcomes attempt with
    | .exit 0 => ⟨true, execs + 1, fixes⟩
    | .exit (_ + 1) => runAttempts outcomes (attempt + 1) (execs + 1) (fixes + 1) remaining
    | .timeoutExpired => ⟨false, execs + 1, fixes⟩
    | .execError => ⟨false, execs + 1, fixes⟩

/-- `TestRunner.run_tests` (lines 406–457): the skip guards, then the bounded
run/fix loop. -/
def runTests (outcomes : Nat → ExecOutcome) (testCommand : String)
    (packageJsonExists : Bool) (maxAttempts : Nat) : RunResult :=
  if testCommand == "" then ⟨true, 0, 0⟩
  else if strIn "npm" (strLower testCommand) && !packageJsonExists then ⟨true, 0, 0⟩
  else runAttempts outcomes 0 0 0 maxAttempts

/-! Section: Helper lemmas about the test-fix loop -/

theorem runAttempts_allFail (outcomes : Nat → ExecOutcome)
    (hfail : ∀ n, isNonzeroExit (outcomes n) = true) :
    ∀ remaining attempt execs fixes,
      runAttempts outcomes attempt execs fixes remaining
        = ⟨false, execs + remaining, fixes + remaining⟩ := by
  intro remaining
  induction remaining with
  | zero => intro attempt execs fixes; rfl
  | succ r ih =>
    intro attempt execs fixes
    have h := hfail attempt
    cases ho : outcomes attempt with
    | exit code =>
      cases code with
      | zero => rw [ho] at h; simp [isNonzeroExit] at h
      | succ k =>
        simp only [runAttempts, ho, ih (attempt + 1) (execs + 1) (fixes + 1)]
        simp only [RunResult.mk.injEq, true_and]
        omega
    | timeoutExpired => rw [ho] at h; simp [isNonzeroExit] at h
    | execError => rw [ho] at h; simp [isNonzeroExit] at h

theorem runAttempts_bounds (outcomes : Nat → ExecOutcome) :
    ∀ remaining attempt execs fixes,
      (runAttempts outcomes attempt execs fixes remaining).execs ≤ execs + remaining
      ∧ (runAttempts outcomes attempt execs fixes remaining).fixes ≤ fixes + remaining := by
  intro remaining
  induction remaining with
  | zero => intro a e f; exact ⟨Nat.le_add_right _ _, Nat.le_add_right _ _⟩
  | succ r ih =>
    intro a e f
    cases ho : outcomes a with
    | exit code =>
      cases code with
      | zero => simp only [runAttempts, ho]; exact ⟨by omega, by omega⟩
      | succ k =>
        have h := ih (a + 1) (e + 1) (f + 1)
        simp only [runAttempts, ho]
        exact ⟨le_trans h.1 (by omega), le_trans h.2 (by omega)⟩
    | timeoutExpired => simp only [runAttempts, ho]; exact ⟨by omega, by omega⟩
    | execError => simp only [runAttempts, ho]; exact ⟨by omega, by omega⟩

theorem runTests_not_skip (outcomes : Nat → ExecOutcome) (cmd : String) (pkg : Bool)
    (m : Nat) (h : skipsTests cmd pkg = false) :
    runTests outcomes cmd pkg m = runAttempts outcomes 0 0 0 m := by
  rcases Bool.or_eq_false_iff.mp h with ⟨h1, h2⟩
  simp [runTests, h1, h2]

/-- Claim C1 (corrected). As stated the claim fails: the fix step runs inside
the loop body on every failing attempt, including the final one, so an
always-failing command under `max_attempts = 3` triggers exactly 3 test
executions and exactly 3 (not 2) fix invocations, and returns failure; in
general test executions never exceed `max_attempts` and fix invocations never
exceed `max_attempts` (not `max_attempts - 1`). -/
theorem run_tests_attempt_budget (outcomes : Nat → ExecOutcome)
    (testCommand : String) (packageJsonExists : Bool) (maxAttempts : Nat)
    (hskip : skipsTests testCommand packageJsonExists = false)
    (hfail : ∀ n, isNonzeroExit (outcomes n) = true) :
    runTests outcomes testCommand packageJsonExists 3
      = { success := false, execs := 3, fixes := 3 }
    ∧ (runTests outcomes testCommand packageJsonExists maxAttempts).execs ≤ maxAttempts
    ∧ (runTests outcomes testCommand packageJsonExists maxAttempts).fixes ≤ maxAttempts := by
  refine ⟨?_, ?_, ?_⟩
  · rw [runTests_not_skip _ _ _ _ hskip, runAttempts_allFail outcomes hfail]
  · rw [runTests_not_skip _ _ _ _ hskip]
    have h := (runAttempts_bounds outcomes maxAttempts 0 0 0).1
    omega
  · rw [runTests_not_skip _ _ _ _ hskip]
    have h := (runAttempts_bounds outcomes maxAttempts 0 0 0).2
    omega

/-- Claim C1 counterexample: for the always-failing command `pytest tests` with
`max_attempts = 3`, the code performs 3 fix invocations, not the 2 the claim
states. -/
theorem run_tests_attempt_budget_cex :
    (runTests (fun _ => ExecOutcome.exit 1) "pytest tests" true 3).fixes = 3
    ∧ ¬ (runTests (fun _ => ExecOutcome.exit 1) "pytest tests" true 3).fixes = 2 := by
  decide

/-- Witness for `run_tests_attempt_budget` at a concrete always-failing
command. -/
theorem run_tests_attempt_budget_witness :
    skipsTests "pytest tests" true = false
    ∧ (∀ n, isNonzeroExit ((fun (_ : Nat) => ExecOutcome.exit 1) n) = true)
    ∧ runTests (fun (_ : Nat) => ExecOutcome.exit 1) "pytest tests" true 3
        = { success := false, execs := 3, fixes := 3 } :=
  ⟨by decide, fun _ => rfl,
    (run_tests_attempt_budget (fun (_ : Nat) => ExecOutcome.exit 1) "pytest tests" true 3
      (by decide) (fun _ => rfl)).1⟩

/-- Claim C7 (confirmed). A command that exits non-zero on its first execution
and exits 0 on its second, under `max_attempts = 3`, yields exactly 2 test
executions, exactly 1 fix invocation, and success. -/
theorem run_tests_fail_then_pass (outcomes : Nat → ExecOutcome)
    (testCommand : String) (packageJsonExists : Bool)
    (hskip : skipsTests testCommand packageJsonExists = false)
    (h0 : isNonzeroExit (outcomes 0) = true)
    (h1 : outcomes 1 = ExecOutcome.exit 0) :
    runTests outcomes testCommand packageJsonExists 3
      = { success := true, execs := 2, fixes := 1 } := by
  rw [runTests_not_skip _ _ _ _ hskip]
  cases ho : outcomes 0 with
  | exit code =>
    cases code with
    | zero => rw [ho] at h0; simp [isNonzeroExit] at h0
    | succ k => simp only [runAttempts, ho, h1]
  | timeoutExpired => rw [ho] at h0; simp [isNonzeroExit] at h0
  | execError => rw [ho] at h0; simp [isNonzeroExit] at h0

/-- Witness for `run_tests_fail_then_pass` at a concrete
fail-once-then-pass command. -/
theorem run_tests_fail_then_pass_witness :
    runTests (fun n => if n = 0 then ExecOutcome.exit 1 else ExecOutcome.exit 0)
        "pytest tests" true 3
      = { success := true, execs := 2, fixes := 1 } :=
  run_tests_fail_then_pass
    (fun n => if n = 0 then ExecOutcome.exit 1 else ExecOutcome.exit 0)
    "pytest tests" true (by decide) (by decide) (by decide)

/-- Claim C8 (confirmed). An empty test command, and likewise an npm-style
command without a `package.json` in the project, both make `run_tests` return
success with zero test executions and zero fix invocations. -/
theorem run_tests_skip (outcomes : Nat → ExecOutcome) (testCommand : String)
    (packageJsonExists : Bool) (maxAttempts : Nat) :
    (testCommand = "" →
      runTests outcomes testCommand packageJsonExists maxAttempts
        = { success := true, execs := 0, fixes := 0 })
    ∧ (strIn "npm" (strLower testCommand) = true → packageJsonExists = false →
        runTests outcomes testCommand packageJsonExists maxAttempts
          = { success := true, execs := 0, fixes := 0 }) := by
  constructor
  · intro h; subst h; rfl
  · intro hnpm hpkg; subst hpkg
    rcases Bool.eq_false_or_eq_true (testCommand == "") with hc | hc <;>
      simp [runTests, hc, hnpm]

/-- Witness for `run_tests_skip`: the empty command, and `npm test` without a
`package.json`, both skip. -/
theorem run_tests_skip_witness :
    runTests (fun _ => ExecOutcome.exit 1) "" true 3
      = { success := true, execs := 0, fixes := 0 }
    ∧ runTests (fun _ => ExecOutcome.exit 1) "npm test" false 3
      = { success := true, execs := 0, fixes := 0 } :=
  ⟨(run_tests_skip (fun _ => ExecOutcome.exit 1) "" true 3).1 rfl,
   (run_tests_skip (fun _ => ExecOutcome.exit 1) "npm test" false 3).2 (by decide) rfl⟩

/-! Section: Helper lemmas about sanitization -/

theorem head?_dropWhile_false {α : Type} {p : α → Bool} {l : List α} {c : α}
    (h : (l.dropWhile p).head? = some c) : p c = false := by
  have hw := List.head?_dropWhile_not p l
  rw [h] at hw
  exact hw

theorem mem_stripDotSpace {l : List Char} {c : Char} (h : c ∈ stripDotSpace l) :
    c ∈ l := by
  unfold stripDotSpace at h
  rw [List.mem_reverse] at h
  have h2 := List.dropWhile_subset isDotSpace h
  rw [List.mem_reverse] at h2
  exact List.dropWhile_subset isDotSpace h2

theorem getLast?_stripDotSpace {l : List Char} {c : Char}
    (h : (stripDotSpace l).getLast? = some c) : isDotSpace c = false := by
  unfold stripDotSpace at h
  rw [List.getLast?_reverse] at h
  exact head?_dropWhile_false h

theorem head?_stripDotSpace {l : List Char} {c : Char}
    (h : (stripDotSpace l).head? = some c) : isDotSpace c = false := by
  unfold stripDotSpace at h
  rw [List.head?_reverse] at h
  obtain ⟨t, ht⟩ := List.dropWhile_suffix
    (l := (l.dropWhile isDotSpace).reverse) isDotSpace
  have hm : ((l.dropWhile isDotSpace).reverse).getLast? = some c := by
    rw [← ht, List.getLast?_append, h]
    rfl
  rw [List.getLast?_reverse] at hm
  exact head?_dropWhile_false hm

theorem mem_replaceIllegal {name : String} {c : Char}
    (h : c ∈ replaceIllegal name) : illegalChars.contains c = false := by
  unfold replaceIllegal at h
  obtain ⟨a, -, rfl⟩ := List.mem_map.mp h
  cases hic : illegalChars.contains a with
  | true => simp only [hic, if_true]; decide
  | false =>
    rw [if_neg (by simp [hic])]
    exact hic

theorem head?_take_50 {l : List Char} {c : Char}
    (h : (l.take 50).head? = some c) : l.head? = some c := by
  cases l with
  | nil => simp at h
  | cons a t => simpa using h

/-- Claim C2 (corrected). As stated the claim fails: stripping happens before
truncation, so cutting at 50 characters can re-expose a trailing dot or
space. What holds: the sanitized name contains no filesystem-illegal
character, has no leading dot or space, has length at most 50, and — when the
stripped name already fits in 50 characters, so no truncation occurs — also
no trailing dot or space. -/
theorem sanitize_name_properties (name : String) :
    (∀ c ∈ (sanitizeName name).toList, illegalChars.contains c = false)
    ∧ (∀ c, (sanitizeName name).toList.head? = some c → isDotSpace c = false)
    ∧ (sanitizeName name).length ≤ 50
    ∧ ((stripDotSpace (replaceIllegal name)).length ≤ 50 →
        ∀ c, (sanitizeName name).toList.getLast? = some c → isDotSpace c = false) := by
  refine ⟨?_, ?_, ?_, ?_⟩
  · intro c hc
    have h1 : c ∈ stripDotSpace (replaceIllegal name) :=
      List.mem_of_mem_take (by simpa [sanitizeName] using hc)
    exact mem_replaceIllegal (mem_stripDotSpace h1)
  · intro c hc
    have h1 : (stripDotSpace (replaceIllegal name)).head? = some c :=
      head?_take_50 (by simpa [sanitizeName] using hc)
    exact head?_stripDotSpace h1
  · show ((stripDotSpace (replaceIllegal name)).take 50).length ≤ 50
    rw [List.length_take]
    omega
  · intro h50 c hc
    have htake : (stripDotSpace (replaceIllegal name)).take 50
        = stripDotSpace (replaceIllegal name) := List.take_of_length_le h50
    have h1 : (stripDotSpace (replaceIllegal name)).getLast? = some c := by
      rw [← htake]
      simpa [sanitizeName] using hc
    exact getLast?_stripDotSpace h1

/-- Claim C2 counterexample: a 51-character topic with a space at position 50
sanitizes to a name whose last character is a space — the truncation step
re-exposes a trailing space that the claim rules out. -/
theorem sanitize_name_trailing_space_cex :
    (sanitizeName (String.mk (List.replicate 49 'a' ++ [' ', 'b']))).toList.getLast?
      = some ' '
    ∧ isDotSpace ' ' = true := by decide

/-- Witness for `sanitize_name_properties` at the concrete topic
`" a<b. "` (sanitized to `"a_b"`). -/
theorem sanitize_name_properties_witness :
    illegalChars.contains '_' = false
    ∧ isDotSpace 'a' = false
    ∧ isDotSpace 'b' = false :=
  ⟨(sanitize_name_properties " a<b. ").1 '_' (by decide),
   (sanitize_name_properties " a<b. ").2.1 'a' (by decide),
   (sanitize_name_properties " a<b. ").2.2.2 (by decide) 'b' (by decide)⟩

/-- Claim C3 (code_bug). `create_structure` performs no validation of the
sanitized name, although the spec requires an empty result to be a
validation error. For the topic `"..."` the sanitized name is empty, so
`project_path = desktop_path / ""` is the desktop directory itself
(`pathlib` ignores an empty segment); since that path exists, the very first
filesystem operation is `shutil.rmtree` of the desktop, after which it is
recreated — instead of any error being raised. -/
theorem create_structure_empty_name_no_validation :
    sanitizeName "..." = ""
    ∧ (createStructure ["Users", "dev", "Desktop"] (fun _ => true) "..."
        initFallbackStructure).2 = ["Users", "dev", "Desktop"]
    ∧ (createStructure ["Users", "dev", "Desktop"] (fun _ => true) "..."
        initFallbackStructure).1.head?
      = some (FsAction.rmtree ["Users", "dev", "Desktop"]) := by decide

/-! Section: Helper lemmas about the retry loop of `ask` -/

theorem askLoop_failed_cont (topic : String) (attempts : Nat → AttemptResult)
    (fb : FbStructure) (i r : Nat)
    (h : isFailedAttempt (attempts i) = true) (hr : (r == 0) = false) :
    askLoop topic attempts fb i (r + 1) = askLoop topic attempts fb (i + 1) r := by
  cases ha : attempts i with
  | success t => rw [ha] at h; simp [isFailedAttempt] at h
  | timeout => simp [askLoop, ha, hr]
  | requestError => simp [askLoop, ha, hr]
  | envelopeError => simp [askLoop, ha, hr]

theorem askLoop_failed_last (topic : String) (attempts : Nat → AttemptResult)
    (fb : FbStructure) (i : Nat)
    (h : isFailedAttempt (attempts i) = true) :
    askLoop topic attempts fb i 1
      = (some (getFallbackStructure topic fb).1, (getFallbackStructure topic fb).2) := by
  cases ha : attempts i with
  | success t => rw [ha] at h; simp [isFailedAttempt] at h
  | timeout => simp [askLoop, ha]
  | requestError => simp [askLoop, ha]
  | envelopeError => simp [askLoop, ha]

theorem askLoop_allFail (topic : String) (attempts : Nat → AttemptResult)
    (fb : FbStructure) (hfail : ∀ n, isFailedAttempt (attempts n) = true) :
    askLoop topic attempts fb 0 3
      = (some (getFallbackStructure topic fb).1, (getFallbackStructure topic fb).2) := by
  have e1 : askLoop topic attempts fb 0 3 = askLoop topic attempts fb 1 2 :=
    askLoop_failed_cont topic attempts fb 0 2 (hfail 0) rfl
  have e2 : askLoop topic attempts fb 1 2 = askLoop topic attempts fb 2 1 :=
    askLoop_failed_cont topic attempts fb 1 1 (hfail 1) rfl
  rw [e1, e2]
  exact askLoop_failed_last topic attempts fb 2 (hfail 2)

/-- Claim C4 (corrected). As stated the claim fails: a response text that is
not parseable as JSON reaches `parse_structure`, whose `except` clause
re-raises the `json.JSONDecodeError` — the run aborts instead of using the
fallback. The FallbackPlanner is substituted only when all three `ask`
attempts fail at the transport/envelope level (timeout, request error, or a
malformed response envelope), in which case acquisition parses the fallback
text. -/
theorem parse_error_aborts (topic : String) (fb fb2 : FbStructure)
    (attempts attempts2 : Nat → AttemptResult)
    (hfirst : attempts 0 = AttemptResult.success none)
    (hfail : ∀ n, isFailedAttempt (attempts2 n) = true) :
    acquireBlueprint topic attempts fb = Except.error PyError.jsonDecodeError
    ∧ acquireBlueprint topic attempts2 fb2
        = parseStructure (some (getFallbackStructure topic fb2).1) := by
  constructor
  · have hask : askLoop topic attempts fb 0 3 = (none, fb) := by
      simp [askLoop, hfirst]
    unfold acquireBlueprint ask
    rw [hask]
    rfl
  · unfold acquireBlueprint ask
    rw [askLoop_allFail topic attempts2 fb2 hfail]

/-- Claim C4 counterexample: a first attempt that returns non-JSON text makes
acquisition abort with a parse error — it does not return the fallback
blueprint. -/
theorem parse_error_aborts_cex :
    acquireBlueprint "calculator" (fun (_ : Nat) => AttemptResult.success none)
        initFallbackStructure
      = Except.error PyError.jsonDecodeError := rfl

/-- Witness for `parse_error_aborts` at concrete attempt traces: all-success
with unparseable text, and all-timeout. -/
theorem parse_error_aborts_witness :
    acquireBlueprint "todo app" (fun (_ : Nat) => AttemptResult.success none)
        initFallbackStructure
      = Except.error PyError.jsonDecodeError
    ∧ acquireBlueprint "todo app" (fun (_ : Nat) => AttemptResult.timeout)
        initFallbackStructure
      = parseStructure
          (some (getFallbackStructure "todo app" initFallbackStructure).1) :=
  parse_error_aborts "todo app" initFallbackStructure initFallbackStructure
    (fun _ => AttemptResult.success none) (fun _ => AttemptResult.timeout)
    rfl (fun _ => rfl)

/-! Section: Helper lemmas about dict defaulting -/

theorem lookup_setItem_self (k : String) (v : Json) (l : List (String × Json)) :
    lookup k (setItem k v l) = some v := by
  induction l with
  | nil => simp [setItem, lookup]
  | cons kv rest ih =>
    cases h : (kv.1 == k) with
    | true => simp [setItem, lookup, h]
    | false => simp [setItem, lookup, h, ih]

theorem lookup_setItem_ne (k kq : String) (v : Json) (l : List (String × Json))
    (h : (kq == k) = false) :
    lookup k (setItem kq v l) = lookup k l := by
  induction l with
  | nil => simp [setItem, lookup, h]
  | cons kv rest ih =>
    cases hkv : (kv.1 == kq) with
    | true =>
      have heq : kv.1 = kq := by simpa using hkv
      simp [setItem, lookup, hkv, heq, h]
    | false => simp [setItem, lookup, hkv, ih]

theorem hasKey_setItem_ne (k kq : String) (v : Json) (l : List (String × Json))
    (h : (kq == k) = false) :
    hasKey k (setItem kq v l) = hasKey k l := by
  induction l with
  | nil => simp [setItem, hasKey, h]
  | cons kv rest ih =>
    cases hkv : (kv.1 == kq) with
    | true =>
      have heq : kv.1 = kq := by simpa using hkv
      simp [setItem, hasKey, hkv, heq, h]
    | false =>
      simp only [setItem, hkv, Bool.false_eq_true, if_false]
      simp only [hasKey, List.any_cons] at ih ⊢
      rw [ih]

theorem lookup_setDefault_ne (k kq : String) (v : Json) (l : List (String × Json))
    (h : (kq == k) = false) :
    lookup k (setDefault kq v l) = lookup k l := by
  cases hk : hasKey kq l with
  | true => simp [setDefault, hk]
  | false => simp [setDefault, hk, lookup_setItem_ne _ _ _ _ h]

theorem lookup_setDefault_absent (k : String) (v : Json) (l : List (String × Json))
    (h : hasKey k l = false) :
    lookup k (setDefault k v l) = some v := by
  simp [setDefault, h, lookup_setItem_self]

theorem hasKey_setDefault_ne (k kq : String) (v : Json) (l : List (String × Json))
    (h : (kq == k) = false) :
    hasKey k (setDefault kq v l) = hasKey k l := by
  cases hk : hasKey kq l with
  | true => simp [setDefault, hk]
  | false => simp [setDefault, hk, hasKey_setItem_ne _ _ _ _ h]

/-- Claim C5 (confirmed). Validation raises a `ValueError` whenever any file
object misses one of `path`, `description`, `copilot_prompt` (no partial
acceptance), while missing top-level `folders`/`files`/`interactions` keys
are filled with `[]`, `[]`, `""` respectively and cause no error. -/
theorem parse_structure_validation (kvs : List (String × Json)) :
    ((∃ f ∈ filesOf kvs, fileHasRequiredKeys f = false) →
      parseStructure (some (Json.obj kvs)) = Except.error PyError.valueError)
    ∧ ((∀ f ∈ filesOf kvs, fileHasRequiredKeys f = true) →
      parseStructure (some (Json.obj kvs)) = Except.ok (fillDefaults kvs)
      ∧ (hasKey "folders" kvs = false →
          lookup "folders" (fillDefaults kvs) = some (Json.arr []))
      ∧ (hasKey "files" kvs = false →
          lookup "files" (fillDefaults kvs) = some (Json.arr []))
      ∧ (hasKey "interactions" kvs = false →
          lookup "interactions" (fillDefaults kvs) = some (Json.str ""))) := by
  constructor
  · rintro ⟨f, hf, hbad⟩
    have hall : (filesOf kvs).all fileHasRequiredKeys = false := by
      rcases Bool.eq_false_or_eq_true ((filesOf kvs).all fileHasRequiredKeys)
        with h | h
      · rw [List.all_eq_true.mp h f hf] at hbad; exact absurd hbad (by simp)
      · exact h
    simp [parseStructure, hall]
  · intro hgood
    have hall : (filesOf kvs).all fileHasRequiredKeys = true :=
      List.all_eq_true.mpr hgood
    refine ⟨by simp [parseStructure, hall], ?_, ?_, ?_⟩
    · intro h
      unfold fillDefaults
      rw [lookup_setDefault_ne _ _ _ _ (by decide),
          lookup_setDefault_ne _ _ _ _ (by decide)]
      exact lookup_setDefault_absent _ _ _ h
    · intro h
      unfold fillDefaults
      rw [lookup_setDefault_ne _ _ _ _ (by decide)]
      exact lookup_setDefault_absent _ _ _
        (by rw [hasKey_setDefault_ne _ _ _ _ (by decide)]; exact h)
    · intro h
      unfold fillDefaults
      exact lookup_setDefault_absent _ _ _
        (by rw [hasKey_setDefault_ne _ _ _ _ (by decide),
                hasKey_setDefault_ne _ _ _ _ (by decide)]; exact h)

/-- Witness for `parse_structure_validation`: a blueprint whose only file
object misses `description` and `copilot_prompt` is rejected; the empty
blueprint is accepted with the three defaults filled in. -/
theorem parse_structure_validation_witness :
    parseStructure (some (Json.obj
        [("files", Json.arr [Json.obj [("path", Json.str "a")]])]))
      = Except.error PyError.valueError
    ∧ parseStructure (some (Json.obj [])) = Except.ok (fillDefaults [])
    ∧ lookup "folders" (fillDefaults []) = some (Json.arr []) :=
  ⟨(parse_structure_validation
      [("files", Json.arr [Json.obj [("path", Json.str "a")]])]).1
      ⟨Json.obj [("path", Json.str "a")], List.mem_singleton.mpr rfl, by decide⟩,
   ((parse_structure_validation []).2 (by decide)).1,
   ((parse_structure_validation []).2 (by decide)).2.1 (by decide)⟩

/-- Claim C6 (corrected). As stated the claim fails: validation checks only
the *presence* of the keys `path`, `description`, `copilot_prompt`, never
that `path` is non-empty — a file object whose `path` value is the empty
string passes validation and the blueprint is accepted. -/
theorem empty_path_accepted (description prompt : String) :
    parseStructure (some (Json.obj
        [("files", Json.arr [Json.obj
          [("path", Json.str ""), ("description", Json.str description),
           ("copilot_prompt", Json.str prompt)]])]))
      = Except.ok
          [("files", Json.arr [Json.obj
            [("path", Json.str ""), ("description", Json.str description),
             ("copilot_prompt", Json.str prompt)]]),
           ("folders", Json.arr []), ("interactions", Json.str "")] := rfl

/-- Claim C6 counterexample: a concrete blueprint whose file object has an
empty `path` value is accepted by validation, not rejected. -/
theorem empty_path_accepted_cex :
    parseStructure (some (Json.obj
        [("files", Json.arr [Json.obj
          [("path", Json.str ""), ("description", Json.str "d"),
           ("copilot_prompt", Json.str "p")]])]))
      = Except.ok
          [("files", Json.arr [Json.obj
            [("path", Json.str ""), ("description", Json.str "d"),
             ("copilot_prompt", Json.str "p")]]),
           ("folders", Json.arr []), ("interactions", Json.str "")] := rfl

/-! Section: Determinism and round-trip of the fallback planner -/

theorem updateMainPrompt_idem (topic : String) (files : List FileEntry) :
    updateMainPrompt topic (updateMainPrompt topic files)
      = updateMainPrompt topic files := by
  unfold updateMainPrompt
  rw [List.map_map]
  apply List.map_congr_left
  intro f _
  cases h : (f.path == "src/main.py") with
  | true => simp [Function.comp, h]
  | false => simp [Function.comp, h]

/-- Claim C9 (confirmed). Two successive invocations of
`_get_fallback_structure` with the same topic — the second starting from the
state the first left behind, accounting for the in-place mutation of the
shared fallback file entries in the generic branch — return equal structure
values; `json.dumps` being a deterministic function of the value, the two
returned blueprint strings are byte-identical. -/
theorem fallback_deterministic (topic : String) (fb : FbStructure) :
    (getFallbackStructure topic (getFallbackStructure topic fb).2).1
      = (getFallbackStructure topic fb).1 := by
  unfold getFallbackStructure
  cases hw : anyKeywordIn webKeywords (strLower topic) with
  | true => simp [hw]
  | false =>
    cases hb : anyKeywordIn backendKeywords (strLower topic) with
    | true => simp [hw, hb]
    | false => simp [hw, hb, fbToJson, updateMainPrompt_idem]

theorem all_fileEntryToJson (files : List FileEntry) :
    (files.map fileEntryToJson).all fileHasRequiredKeys = true := by
  induction files with
  | nil => rfl
  | cons f rest ih =>
    show (fileHasRequiredKeys (fileEntryToJson f)
        && (rest.map fileEntryToJson).all fileHasRequiredKeys) = true
    rw [show fileHasRequiredKeys (fileEntryToJson f) = true from rfl,
        Bool.true_and]
    exact ih

theorem parseStructure_ok_of_allKeys (kvs : List (String × Json))
    (h1 : hasKey "folders" kvs = true) (h2 : hasKey "files" kvs = true)
    (h3 : hasKey "interactions" kvs = true)
    (h4 : (filesOf kvs).all fileHasRequiredKeys = true) :
    parseStructure (some (Json.obj kvs)) = Except.ok kvs := by
  have hfill : fillDefaults kvs = kvs := by
    simp [fillDefaults, setDefault, h1, h2, h3]
  simp [parseStructure, h4, hfill]

/-- Claim C10 (confirmed). For every topic and every fallback state, the text
returned by `_get_fallback_structure` parses back (`json.loads` inverting
`json.dumps`) and passes `parse_structure` without raising, and every file
object of the resulting blueprint carries all three required keys — a
fallback blueprint can never trigger the fatal validation path. -/
theorem fallback_roundtrip (topic : String) (fb : FbStructure) :
    parseStructure (some (getFallbackStructure topic fb).1)
      = Except.ok (jsonObjKvs (getFallbackStructure topic fb).1)
    ∧ (filesOf (jsonObjKvs (getFallbackStructure topic fb).1)).all
        fileHasRequiredKeys = true := by
  have key : ∀ j : Json,
      (j = webStructureJson topic ∨ j = backendStructureJson topic ∨
        ∃ fbq : FbStructure, j = fbToJson fbq) →
      parseStructure (some j) = Except.ok (jsonObjKvs j)
      ∧ (filesOf (jsonObjKvs j)).all fileHasRequiredKeys = true := by
    rintro j (rfl | rfl | ⟨fbq, rfl⟩)
    · exact ⟨parseStructure_ok_of_allKeys _ rfl rfl rfl rfl, rfl⟩
    · exact ⟨parseStructure_ok_of_allKeys _ rfl rfl rfl rfl, rfl⟩
    · have hfiles : (filesOf (jsonObjKvs (fbToJson fbq))).all fileHasRequiredKeys
          = true := by
        show ((fbq.files.map fileEntryToJson)).all fileHasRequiredKeys = true
        exact all_fileEntryToJson fbq.files
      exact ⟨parseStructure_ok_of_allKeys _ rfl rfl rfl hfiles, hfiles⟩
  apply key
  unfold getFallbackStructure
  cases hw : anyKeywordIn webKeywords (strLower topic) with
  | true => simp [hw]
  | false =>
    cases hb : anyKeywordIn backendKeywords (strLower topic) with
    | true => simp [hw, hb]
    | false =>
      simp only [hw, hb, Bool.false_eq_true, if_false]
      exact Or.inr (Or.inr ⟨_, rfl⟩)

end AutoForge
